import Mathlib

namespace CdkKnowledge

/-- The static CDK best-practices guidance text, the module constant
`CDK_BEST_PRACTICES_SUMMARY` of `tools/cdk_best_practices.py` (lines 25-706),
embedded character-for-character (the source's Python escape `\a` is the
bell character `\x07`). -/
def CDK_BEST_PRACTICES_SUMMARY : String := "\n# AWS CDK Best Practices for AI Agents\n\n## Getting Started with CDK\n\n### Create a new CDK project\n\n**Use \x60cdk init\x60 to scaffold a new project**\n- Create a dedicated directory for each CDK project\n- Initialize with the \x60app\x60 template and your preferred language\n- CDK CLI creates project structure with app and stack files\n\nExample:\n\x60\x60\x60bash\n# Create and navigate to project directory\nmkdir my-cdk-app && cd my-cdk-app\n\n# Initialize CDK project\ncdk init app --language typescript\n# Or: --language javascript, python, java, csharp, go\n\x60\x60\x60\n\n**Project structure after initialization**\n- \x60bin/\x60 or root: Application entry point that instantiates stacks\n- \x60lib/\x60 or package directory: Stack definitions and constructs\n- \x60cdk.json\x60: CDK Toolkit configuration\n- \x60package.json\x60, \x60requirements.txt\x60, etc.: Language-specific dependencies\n\n**Language-specific setup steps**\n\nPython:\n\x60\x60\x60bash\ncdk init app --language python\nsource .venv/bin/activate  # Windows: .venv\\Scripts\x07ctivate\npython -m pip install -r requirements.txt\n\x60\x60\x60\n\nJava:\n\x60\x60\x60bash\ncdk init app --language java\n# Import as Maven project in your IDE\n\x60\x60\x60\n\nGo:\n\x60\x60\x60bash\ncdk init app --language go\ngo get  # Install dependencies\n\x60\x60\x60\n\n### Configure and bootstrap your AWS environment\n\n**Specify target account and region in stack props**\n\x60\x60\x60typescript\nnew MyStack(app, \x27MyStack\x27, \x7b\n  env: \x7b account: \x27123456789012\x27, region: \x27us-east-1\x27 \x7d\n\x7d);\n\x60\x60\x60\n\n**Bootstrap before first deployment**\n\x60\x60\x60bash\ncdk bootstrap  # Uses env from code\ncdk bootstrap aws://123456789012/us-east-1  # Explicit\n\x60\x60\x60\n\n### Common CDK commands\n\n**Build, list, deploy, and destroy**\n- \x60npm run build\x60 (TypeScript), \x60mvn compile\x60 (Java), \x60go build\x60 (Go) - Build your app\n- \x60cdk list\x60 - List all stacks in the app\n- \x60cdk synth\x60 - Synthesize CloudFormation template to \x60cdk.out/\x60\n- \x60cdk deploy\x60 - Deploy stacks to AWS\n- \x60cdk destroy\x60 - Delete deployed stacks\n\n---\n\n## Core Development Principles\n\n### Code Organization\n\n**Make decisions at synthesis time**\n- Use programming language conditionals (\x60if\x60 statements) instead of CloudFormation conditions\n- Avoid CloudFormation \x60Parameters\x60, \x60Conditions\x60, and \x60\x7b Fn::If \x7d\x60\n- Treat CloudFormation as an implementation detail, not a language target\n\nExample:\n\x60\x60\x60typescript\n// Good: Decision at synthesis time\nconst bucket = isProd\n  ? new s3.Bucket(this, \x27ProdBucket\x27, \x7b versioned: true \x7d)\n  : new s3.Bucket(this, \x27DevBucket\x27);\n\n// Avoid: CloudFormation conditions\n\x60\x60\x60\n\n### Resource Naming\n\n**Use generated names, not physical names**\n- Omit resource names to let CDK generate them\n- Pass generated names via environment variables or references\n- Hardcoded names prevent multiple deployments and resource replacement\n\nExample:\n\x60\x60\x60typescript\n// Good: Generated name\nconst table = new dynamodb.Table(this, \x27MyTable\x27, \x7b\n  partitionKey: \x7b name: \x27id\x27, type: dynamodb.AttributeType.STRING \x7d\n\x7d);\n// Pass to Lambda: table.tableName\n\n// Avoid: Hardcoded name\nconst table = new dynamodb.Table(this, \x27MyTable\x27, \x7b\n  tableName: \x27my-fixed-table-name\x27,  // Prevents multiple deployments\n  partitionKey: \x7b name: \x27id\x27, type: dynamodb.AttributeType.STRING \x7d\n\x7d);\n\x60\x60\x60\n\n### Stack Organization\n\n**Model with constructs, deploy with stacks**\n- Represent logical units as \x60Construct\x60, not \x60Stack\x60\n- Use stacks only for deployment composition\n- Stacks are the unit of deployment - everything deploys together\n\n**Separate stacks by deployment requirements**\n- Keep stateful resources (databases, S3 buckets) in separate stacks\n- Enable termination protection on stateful stacks\n- Don\x27t nest stateful resources in constructs likely to be moved or renamed\n\nExample:\n\x60\x60\x60typescript\n// Separate stacks for stateful and stateless resources\nclass DatabaseStack extends Stack \x7b\n  public readonly table: dynamodb.Table;\n\n  constructor(scope: Construct, id: string) \x7b\n    super(scope, id, \x7b terminationProtection: true \x7d);\n    this.table = new dynamodb.Table(this, \x27Table\x27, \x7b ... \x7d);\n  \x7d\n\x7d\n\nclass ApiStack extends Stack \x7b\n  constructor(scope: Construct, id: string, table: dynamodb.Table) \x7b\n    super(scope, id);\n    const lambda = new lambda.Function(this, \x27Handler\x27, \x7b ... \x7d);\n    table.grantReadWriteData(lambda);\n  \x7d\n\x7d\n\x60\x60\x60\n\n### Configuration\n\n**Configure with properties and methods, not environment variables**\n- Accept properties objects for full configurability in code\n- Limit environment variable lookups to the top level of the app\n- Use environment variables only for development environment information\n\nExample:\n\x60\x60\x60typescript\n// Good: Configuration via properties\ninterface MyConstructProps \x7b\n  readonly retentionDays: number;\n  readonly enableEncryption: boolean;\n\x7d\n\nclass MyConstruct extends Construct \x7b\n  constructor(scope: Construct, id: string, props: MyConstructProps) \x7b\n    super(scope, id);\n    // Use props.retentionDays, props.enableEncryption\n  \x7d\n\x7d\n\n// Avoid: Environment variable lookups in constructs\nconst retentionDays = process.env.RETENTION_DAYS; // Anti-pattern\n\x60\x60\x60\n\n### Determinism and Context\n\n**Commit \x60cdk.context.json\x60 to version control**\n- Ensures deterministic deployments\n- Records snapshots of non-deterministic values (AZs, AMIs, VPC lookups)\n- Prevents unexpected changes from AWS-side updates\n\n**Never modify AWS resources during synthesis**\n- Synthesis should be read-only with no side effects\n- Use custom resources for changes that must happen at deployment time\n- Avoid network calls during synthesis when possible\n\n### Resource Management\n\n**Define removal policies and log retention**\n- Default CDK behavior retains all data and logs forever\n- Explicitly set removal policies for production resources\n- Use Aspects to validate removal and logging policies\n\nExample:\n\x60\x60\x60typescript\nconst bucket = new s3.Bucket(this, \x27Bucket\x27, \x7b\n  removalPolicy: cdk.RemovalPolicy.DESTROY,  // Explicit for non-prod\n  autoDeleteObjects: true\n\x7d);\n\nconst logGroup = new logs.LogGroup(this, \x27Logs\x27, \x7b\n  retention: logs.RetentionDays.ONE_WEEK  // Explicit retention\n\x7d);\n\x60\x60\x60\n\n**Don\x27t change logical IDs of stateful resources**\n- Changing logical IDs causes resource replacement\n- Write unit tests asserting logical IDs remain static\n- Logical ID derives from construct \x60id\x60 and position in construct tree\n\n### Testing\n\n**Unit test your infrastructure**\n- Write tests confirming generated templates match expectations\n- Test that logical IDs of stateful resources remain static\n- Ensure deterministic synthesis for reliable testing\n\nExample:\n\x60\x60\x60typescript\nimport \x7b Template \x7d from \x27aws-cdk-lib/assertions\x27;\n\ntest(\x27Bucket has encryption enabled\x27, () => \x7b\n  const stack = new MyStack(app, \x27TestStack\x27);\n  const template = Template.fromStack(stack);\n\n  template.hasResourceProperties(\x27AWS::S3::Bucket\x27, \x7b\n    BucketEncryption: \x7b\n      ServerSideEncryptionConfiguration: [\x7b\n        ServerSideEncryptionByDefault: \x7b\n          SSEAlgorithm: \x27AES256\x27\n        \x7d\n      \x7d]\n    \x7d\n  \x7d);\n\x7d);\n\x60\x60\x60\n\n### Monitoring\n\n**Measure everything**\n- Create metrics, alarms, and dashboards for all resources\n- Record business metrics, not just infrastructure metrics\n- Use measurements to automate deployment decisions\n- Use L2 construct convenience methods like \x60metricUserErrors()\x60\n\nExample:\n\x60\x60\x60typescript\nconst table = new dynamodb.Table(this, \x27Table\x27, \x7b ... \x7d);\n\n// Create alarm on user errors\nconst alarm = table.metricUserErrors()\n  .createAlarm(this, \x27UserErrorsAlarm\x27, \x7b\n    threshold: 10,\n    evaluationPeriods: 2\n  \x7d);\n\x60\x60\x60\n\n---\n\n## Constructs Best Practices\n\n### Construct Levels\n\n**Understand the three construct levels**\n- **L1 (CfnXxx)**: Direct CloudFormation resources, 1:1 mapping\n- **L2**: Curated constructs with sensible defaults and helper methods\n- **L3**: Opinionated patterns combining multiple resources\n\n### L1 Constructs (CloudFormation Resources)\n\n**Avoid L1 constructs when possible**\n- Use L2 constructs for better developer experience\n- L1 constructs lack helper methods and sensible defaults\n\n**Access underlying L1 via \x60defaultChild\x60 when needed**\n\x60\x60\x60typescript\nconst bucket = new s3.Bucket(this, \x27Bucket\x27);\nconst cfnBucket = bucket.node.defaultChild as s3.CfnBucket;\n\n// Modify L1 properties not exposed by L2\ncfnBucket.analyticsConfigurations = [\x7b\n  id: \x27analytics\x27,\n  storageClassAnalysis: \x7b dataExport: \x7b ... \x7d \x7d\n\x7d];\n\x60\x60\x60\n\n**Use \x60addPropertyOverride\x60 as ultimate escape hatch**\n\x60\x60\x60typescript\nconst bucket = new s3.Bucket(this, \x27Bucket\x27);\nconst cfnBucket = bucket.node.defaultChild as s3.CfnBucket;\n\n// Override any CloudFormation property\ncfnBucket.addPropertyOverride(\x27WebsiteConfiguration.RoutingRules\x27, [\n  \x7b\n    RedirectRule: \x7b HostName: \x27example.com\x27 \x7d,\n    RoutingRuleCondition: \x7b HttpErrorCodeReturnedEquals: \x27404\x27 \x7d\n  \x7d\n]);\n\x60\x60\x60\n\n### L2 Constructs (Curated Constructs)\n\n**Leverage L2 helper methods**\n- Use \x60grant*()\x60 methods for permissions\n- Use \x60metric*()\x60 methods for CloudWatch metrics\n- Use \x60addToResourcePolicy()\x60 for resource policies\n- Configure via properties, add details via methods\n\nExample:\n\x60\x60\x60typescript\nconst bucket = new s3.Bucket(this, \x27Bucket\x27);\nconst lambda = new lambda.Function(this, \x27Function\x27, \x7b ... \x7d);\n\n// Helper methods\nbucket.grantReadWrite(lambda);\nbucket.addLifecycleRule(\x7b expiration: Duration.days(90) \x7d);\nbucket.addEventNotification(\n  s3.EventType.OBJECT_CREATED,\n  new s3n.LambdaDestination(lambda)\n);\n\n// Metrics\nconst metric = bucket.metricNumberOfObjects();\nmetric.createAlarm(this, \x27Alarm\x27, \x7b\n  threshold: 1000,\n  evaluationPeriods: 1\n\x7d);\n\x60\x60\x60\n\n**Prefer L2 constructs over L1**\n- Better type safety and IDE support\n- Automatic creation of supporting resources (roles, policies)\n- Sensible defaults following AWS best practices\n\n### L3 Constructs (Patterns)\n\n**Use L3 constructs carefully**\n- Evaluate if a helper class is more appropriate than extending \x60Construct\x60\n- Extend \x60Construct\x60 only when directly interacting with AWS resources\n- Extend specific L2 constructs only to change default properties\n\n**When to extend \x60Construct\x60 directly**\n\x60\x60\x60typescript\nimport \x7b Construct \x7d from \x27constructs\x27;\n\n// Good: Custom pattern combining multiple resources\nclass WebsiteWithApi extends Construct \x7b\n  constructor(scope: Construct, id: string) \x7b\n    super(scope, id);\n\n    const bucket = new s3.Bucket(this, \x27Bucket\x27, \x7b\n      websiteIndexDocument: \x27index.html\x27\n    \x7d);\n\n    const api = new apigateway.RestApi(this, \x27Api\x27);\n    // ... configure API\n  \x7d\n\x7d\n\x60\x60\x60\n\n**When to use a helper class instead**\n\x60\x60\x60typescript\n// Good: Logic without AWS resources\nclass ConfigurationBuilder \x7b\n  private config: Record<string, string> = \x7b\x7d;\n\n  addParameter(key: string, value: string): this \x7b\n    this.config[key] = value;\n    return this;\n  \x7d\n\n  build(): Record<string, string> \x7b\n    return this.config;\n  \x7d\n\x7d\n\n// Use in construct\nconst config = new ConfigurationBuilder()\n  .addParameter(\x27key1\x27, \x27value1\x27)\n  .build();\n\x60\x60\x60\n\n**When to extend L2 constructs**\n\x60\x60\x60typescript\n// Good: Changing default properties of existing construct\nclass EncryptedBucket extends s3.Bucket \x7b\n  constructor(scope: Construct, id: string, props?: s3.BucketProps) \x7b\n    super(scope, id, \x7b\n      ...props,\n      encryption: s3.BucketEncryption.KMS,\n      blockPublicAccess: s3.BlockPublicAccess.BLOCK_ALL,\n      enforceSSL: true\n    \x7d);\n  \x7d\n\x7d\n\x60\x60\x60\n\n### Construct Design\n\n**Keep constructs focused and composable**\n- Each construct should represent a single logical unit\n- Compose constructs to build larger patterns\n- Avoid monolithic constructs that do too much\n\n**Make constructs reusable**\n- Accept configuration via properties\n- Expose important resources as public properties\n- Document expected usage and limitations\n\nExample:\n\x60\x60\x60typescript\ninterface ApiWithDatabaseProps \x7b\n  readonly databaseName: string;\n  readonly apiThrottling?: apigateway.ThrottleSettings;\n\x7d\n\nclass ApiWithDatabase extends Construct \x7b\n  public readonly api: apigateway.RestApi;\n  public readonly database: dynamodb.Table;\n\n  constructor(scope: Construct, id: string, props: ApiWithDatabaseProps) \x7b\n    super(scope, id);\n\n    this.database = new dynamodb.Table(this, \x27Database\x27, \x7b\n      tableName: props.databaseName,\n      partitionKey: \x7b name: \x27id\x27, type: dynamodb.AttributeType.STRING \x7d\n    \x7d);\n\n    this.api = new apigateway.RestApi(this, \x27Api\x27, \x7b\n      deployOptions: \x7b\n        throttlingRateLimit: props.apiThrottling?.rateLimit,\n        throttlingBurstLimit: props.apiThrottling?.burstLimit\n      \x7d\n    \x7d);\n  \x7d\n\x7d\n\x60\x60\x60\n\n### Compliance and Wrapper Constructs\n\n**Don\x27t rely solely on wrapper constructs for compliance**\n- Wrapper constructs can be circumvented\n- Use service control policies and permission boundaries for enforcement\n- Use Aspects and CloudFormation Guard for validation\n- Wrapper constructs may prevent use of third-party construct libraries\n\nExample:\n\x60\x60\x60typescript\n// Wrapper construct for compliance\nclass CompliantBucket extends s3.Bucket \x7b\n  constructor(scope: Construct, id: string, props?: s3.BucketProps) \x7b\n    super(scope, id, \x7b\n      ...props,\n      encryption: s3.BucketEncryption.KMS,\n      blockPublicAccess: s3.BlockPublicAccess.BLOCK_ALL,\n      enforceSSL: true,\n      versioned: true\n    \x7d);\n  \x7d\n\x7d\n\n// But also enforce with Aspects\nclass BucketComplianceAspect implements IAspect \x7b\n  visit(node: IConstruct): void \x7b\n    if (node instanceof s3.CfnBucket) \x7b\n      if (!node.bucketEncryption) \x7b\n        Annotations.of(node).addError(\x27All buckets must have encryption enabled\x27);\n      \x7d\n    \x7d\n  \x7d\n\x7d\n\x60\x60\x60\n\n### Construct Hierarchy\n\n**Organize constructs by abstraction level**\n- Low-level constructs: Individual resources with minimal logic\n- Mid-level constructs: Related resources working together\n- High-level constructs: Complete features or applications\n\n**Pass references between constructs**\n\x60\x60\x60typescript\n// Low-level: Individual resource\nclass Database extends Construct \x7b\n  public readonly table: dynamodb.Table;\n\n  constructor(scope: Construct, id: string) \x7b\n    super(scope, id);\n    this.table = new dynamodb.Table(this, \x27Table\x27, \x7b ... \x7d);\n  \x7d\n\x7d\n\n// Mid-level: Related resources\nclass ApiBackend extends Construct \x7b\n  constructor(scope: Construct, id: string, database: Database) \x7b\n    super(scope, id);\n\n    const lambda = new lambda.Function(this, \x27Handler\x27, \x7b ... \x7d);\n    database.table.grantReadWriteData(lambda);\n\n    const api = new apigateway.LambdaRestApi(this, \x27Api\x27, \x7b\n      handler: lambda\n    \x7d);\n  \x7d\n\x7d\n\n// High-level: Complete application\nclass Application extends Stack \x7b\n  constructor(scope: Construct, id: string) \x7b\n    super(scope, id);\n\n    const database = new Database(this, \x27Database\x27);\n    const api = new ApiBackend(this, \x27Api\x27, database);\n  \x7d\n\x7d\n\x60\x60\x60\n\n---\n\n## Security Best Practices\n\n### IAM and Permissions Management\n\n**Follow IAM security best practices**\n- Apply principle of least privilege\n- Use IAM roles instead of long-term credentials\n- Regularly review and audit permissions\n- Reference: [IAM Security Best Practices](https://docs.aws.amazon.com/IAM/latest/UserGuide/IAMBestPracticesAndUseCases.html)\n\n**Let CDK manage roles and security groups**\n- Use \x60grant()\x60 convenience methods for minimal permissions\n- CDK creates roles with least-privilege policies automatically\n- Avoid predefined roles that limit application design flexibility\n\nExample:\n\x60\x60\x60typescript\nconst bucket = new s3.Bucket(this, \x27Bucket\x27);\nconst lambda = new lambda.Function(this, \x27Function\x27, \x7b ... \x7d);\n\n// Single line grants minimal read permissions\nbucket.grantRead(lambda);\n\n// Avoid: Manual role creation with broad permissions\n\x60\x60\x60\n\n**Use grant methods for resource permissions**\n- L2 constructs provide \x60grant*()\x60 methods for common access patterns\n- Automatically creates least-privilege IAM policies\n- Eliminates manual role and policy creation\n\nExample:\n\x60\x60\x60typescript\nconst table = new dynamodb.Table(this, \x27Table\x27, \x7b ... \x7d);\nconst lambda = new lambda.Function(this, \x27Function\x27, \x7b ... \x7d);\n\n// Grants only necessary DynamoDB permissions\ntable.grantReadWriteData(lambda);\n\x60\x60\x60\n\n**Use validation tools**\n- Use CDK Aspects to validate security properties before deployment\n- Use CloudFormation Guard for policy-as-code validation\n- Don\x27t rely solely on wrapper constructs for compliance\n\nExample:\n\x60\x60\x60typescript\nimport \x7b IAspect, IConstruct \x7d from \x27aws-cdk-lib\x27;\nimport * as s3 from \x27aws-cdk-lib/aws-s3\x27;\n\nclass BucketEncryptionChecker implements IAspect \x7b\n  visit(node: IConstruct): void \x7b\n    if (node instanceof s3.CfnBucket) \x7b\n      if (!node.bucketEncryption) \x7b\n        throw new Error(\x60Bucket $\x7bnode.node.path\x7d must have encryption enabled\x60);\n      \x7d\n    \x7d\n  \x7d\n\x7d\n\n// Apply aspect to stack\nAspects.of(stack).add(new BucketEncryptionChecker());\n\x60\x60\x60\n\n### Secrets and Sensitive Data\n\n**Use Secrets Manager and Parameter Store**\n- Store sensitive values in AWS Secrets Manager or Systems Manager Parameter Store\n- Reference by name or ARN in CDK code\n- Never hardcode credentials or secrets in code\n\nExample:\n\x60\x60\x60typescript\nimport * as secretsmanager from \x27aws-cdk-lib/aws-secretsmanager\x27;\nimport * as ssm from \x27aws-cdk-lib/aws-ssm\x27;\n\n// Reference existing secret\nconst dbPassword = secretsmanager.Secret.fromSecretNameV2(\n  this, \x27DBPassword\x27, \x27prod/db/password\x27\n);\n\n// Reference parameter\nconst apiKey = ssm.StringParameter.valueForStringParameter(\n  this, \x27/prod/api/key\x27\n);\n\n// Use in resources\nconst lambda = new lambda.Function(this, \x27Function\x27, \x7b\n  environment: \x7b\n    DB_PASSWORD_ARN: dbPassword.secretArn,\n    API_KEY: apiKey\n  \x7d\n\x7d);\n\ndbPassword.grantRead(lambda);\n\x60\x60\x60\n\n### Resource Security\n\n**Enable encryption by default**\n- Enable encryption for S3 buckets, EBS volumes, RDS databases\n- Use AWS managed keys (SSE-S3, SSE-KMS) or customer managed keys\n- Many L2 constructs enable encryption by default\n\nExample:\n\x60\x60\x60typescript\n// S3 bucket with encryption\nconst bucket = new s3.Bucket(this, \x27Bucket\x27, \x7b\n  encryption: s3.BucketEncryption.S3_MANAGED,\n  enforceSSL: true  // Require SSL for all requests\n\x7d);\n\x60\x60\x60\n\n**Configure secure defaults**\n- Block public access on S3 buckets\n- Enable VPC flow logs\n- Use security groups with minimal ingress rules\n- Enable CloudTrail logging\n\nExample:\n\x60\x60\x60typescript\nconst vpc = new ec2.Vpc(this, \x27VPC\x27, \x7b\n  flowLogs: \x7b\n    \x27FlowLog\x27: \x7b\n      trafficType: ec2.FlowLogTrafficType.ALL\n    \x7d\n  \x7d\n\x7d);\n\x60\x60\x60\n\n## Compliance best practices\n\n### CDK Nag\nCDK Nag provides a list of compliance rules: https://github.com/cdklabs/cdk-nag/blob/main/RULES.md\n\n**(Optional) Use CDK Nag for compliance checks**\nBefore applying CDK Nag compliance checks, you MUST ask the user if they would like to use CDK Nag.\n\nIF the user provides their consent, install cdk-nag using npm: \x27npm install cdk-nag\x27.\n\nCode example:\n\x60\x60\x60\nimport \x7b Aspects \x7d from \x27aws-cdk-lib\x27;\nimport \x7b AwsSolutionsChecks \x7d from \x27cdk-nag\x27;\nAspects.of(app).add(new AwsSolutionsChecks(\x7b verbose: true \x7d));\n\x60\x60\x60\n\n---\n\n## Key Takeaways\n\n1. **Always prefer L2 constructs** over L1 constructs\n2. **Use grant methods** for permissions instead of manual IAM policies\n3. **Enable encryption by default** for all applicable resources\n4. **Never hardcode resource names** - let CDK generate them\n5. **Make decisions in code**, not CloudFormation templates\n6. **Keep infrastructure and runtime code together**\n7. **Use properties for configuration**, not environment variables\n8. **Test infrastructure code** with unit tests\n9. **Separate stateful and stateless resources** into different stacks\n10. **Always define removal policies** explicitly for production resources\n"

/-- Modelled from the spec: the `KnowledgeResult` value model lives in
`knowledge_models.py`, which is not under `src/`; per the spec's
KnowledgeEntry data model it is one immutable unit of guidance with a rank,
a title, a reference URL and a textual context payload. -/
structure KnowledgeEntry where
  rank : Int
  title : String
  url : String
  context : String
deriving Repr, DecidableEq

/-- Modelled from the spec: the `InvalidEntry` construction-time failure
condition of the error taxonomy. -/
inductive EntryError where
  | InvalidEntry
deriving Repr, DecidableEq

/-- Modelled from the spec: validated construction of a KnowledgeEntry.
Construction fails with `InvalidEntry` if the title is empty or the rank is
non-positive; otherwise the entry carries exactly the given fields. -/
def mkKnowledgeEntry (rank : Int) (title url context : String) :
    Except EntryError KnowledgeEntry :=
  if title = "" ∨ rank ≤ 0 then Except.error EntryError.InvalidEntry
  else Except.ok ⟨rank, title, url, context⟩

/-- The single shipped knowledge entry, the module constant
`CDK_BEST_PRACTICES_KNOWLEDGE` of `tools/cdk_best_practices.py`
(lines 708-712): `KnowledgeResult(rank=1, title='AWS CDK Best Practices',
url='', context=CDK_BEST_PRACTICES_SUMMARY)`. -/
def CDK_BEST_PRACTICES_KNOWLEDGE : KnowledgeEntry :=
  ⟨1, "AWS CDK Best Practices", "", CDK_BEST_PRACTICES_SUMMARY⟩

/-- Modelled from the spec: a KnowledgeProvider (no provider class is under
`src/`) is a named unit owning a fixed, pre-ranked ordered sequence of
entries for one topic; per the spec's invariant the sequence is sorted
strictly ascending by rank (hence ranks are unique within the provider). -/
structure KnowledgeProvider where
  topicKey : String
  entryList : List KnowledgeEntry
  ranks_sorted : entryList.Pairwise (fun a b => a.rank < b.rank)

/-- Modelled from the spec: `topic()` returns the provider's stable topic
key, a pure function of the provider value. -/
def KnowledgeProvider.topic (p : KnowledgeProvider) : String := p.topicKey

/-- Modelled from the spec: `entries()` returns the provider's full,
pre-ranked content, a pure function of the provider value. -/
def KnowledgeProvider.entries (p : KnowledgeProvider) : List KnowledgeEntry :=
  p.entryList

/-- Modelled from the spec: the `DuplicateTopic` and `UnknownTopic` failure
conditions of the error taxonomy. -/
inductive RegistryError where
  | DuplicateTopic
  | UnknownTopic
deriving Repr, DecidableEq

/-- Modelled from the spec: the KnowledgeRegistry (no registry class is
under `src/`) aggregates all registered providers, indexed by topic key. -/
structure KnowledgeRegistry where
  providers : List KnowledgeProvider

/-- The registry before any registration. -/
def emptyRegistry : KnowledgeRegistry := ⟨[]⟩

/-- The provider registered under a topic key, if any. -/
def KnowledgeRegistry.findProvider (r : KnowledgeRegistry) (t : String) :
    Option KnowledgeProvider :=
  r.providers.find? (fun p => p.topicKey == t)

/-- Modelled from the spec: `register` adds a provider; it fails with
`DuplicateTopic`, leaving the registry unchanged, if a provider with the
same topic key is already registered. The result pairs the post-state with
the raised condition, if any. -/
def KnowledgeRegistry.register (r : KnowledgeRegistry)
    (p : KnowledgeProvider) : KnowledgeRegistry × Option RegistryError :=
  match r.findProvider p.topicKey with
  | some _ => (r, some RegistryError.DuplicateTopic)
  | none => (⟨r.providers ++ [p]⟩, none)

/-- Modelled from the spec: `lookup` returns the matching provider's
`entries()` verbatim, and fails with `UnknownTopic` if no provider is
registered under the key. -/
def KnowledgeRegistry.lookup (r : KnowledgeRegistry) (t : String) :
    Except RegistryError (List KnowledgeEntry) :=
  match r.findProvider t with
  | some p => Except.ok p.entries
  | none => Except.error RegistryError.UnknownTopic

/-- Modelled from the spec: `topics()` returns the set of all registered
topic keys. -/
def KnowledgeRegistry.topics (r : KnowledgeRegistry) : Finset String :=
  (r.providers.map (fun p => p.topicKey)).toFinset

/-- The shipped provider of the end-to-end scenario: topic
`"cdk-best-practices"`, single entry `CDK_BEST_PRACTICES_KNOWLEDGE`. -/
def cdkProvider : KnowledgeProvider :=
  ⟨"cdk-best-practices", [CDK_BEST_PRACTICES_KNOWLEDGE], List.pairwise_singleton ..⟩

/-- A provider with topic key `"a"` and no entries, for concrete checks. -/
def witnessProviderA : KnowledgeProvider := ⟨"a", [], List.Pairwise.nil⟩

/-- A provider with topic key `"b"` and no entries, for concrete checks. -/
def witnessProviderB : KnowledgeProvider := ⟨"b", [], List.Pairwise.nil⟩

/-- A provider with two entries of ranks 1 and 2, for concrete checks. -/
def witnessProviderTwo : KnowledgeProvider :=
  ⟨"two", [⟨1, "x", "", ""⟩, ⟨2, "y", "", ""⟩], by decide⟩

/-- A registry holding only `witnessProviderA`, for concrete checks. -/
def witnessRegistryA : KnowledgeRegistry := ⟨[witnessProviderA]⟩

/-- A topic key is registered exactly when it is in `topics()`. -/
theorem findProvider_isSome_iff_mem_topics (r : KnowledgeRegistry) (t : String) :
    (r.findProvider t).isSome ↔ t ∈ r.topics := by
  simp only [KnowledgeRegistry.findProvider, KnowledgeRegistry.topics,
    List.find?_isSome, List.mem_toFinset, List.mem_map]
  constructor
  · rintro ⟨p, hp, hpt⟩
    exact ⟨p, hp, by simpa using hpt⟩
  · rintro ⟨p, hp, hpt⟩
    exact ⟨p, hp, by simpa using hpt⟩

/-- Registering a provider makes `topics()` the old set with the provider's
key inserted (a no-op when the key was already present, since the duplicate
registration is rejected). -/
theorem topics_register (r : KnowledgeRegistry) (p : KnowledgeProvider) :
    ((r.register p).1).topics = insert p.topicKey r.topics := by
  unfold KnowledgeRegistry.register
  cases h : r.findProvider p.topicKey with
  | some q =>
      have hmem : p.topicKey ∈ r.topics := by
        rw [← findProvider_isSome_iff_mem_topics, h]; rfl
      simpa using (Finset.insert_eq_self.mpr hmem).symm
  | none =>
      show (KnowledgeRegistry.mk (r.providers ++ [p])).topics = _
      simp only [KnowledgeRegistry.topics, List.map_append, List.toFinset_append,
        List.map_cons, List.map_nil, List.toFinset_cons, List.toFinset_nil]
      rw [Finset.union_comm]
      simp [Finset.insert_eq]

/-- Claim C1: after registering the provider with topic
`"cdk-best-practices"` whose single entry is
`CDK_BEST_PRACTICES_KNOWLEDGE`, `lookup "cdk-best-practices"` succeeds with
exactly the one-element sequence whose entry has rank 1, title
`"AWS CDK Best Practices"`, empty url and context
`CDK_BEST_PRACTICES_SUMMARY`. -/
theorem lookup_cdk_best_practices_exact :
    ((emptyRegistry.register cdkProvider).1).lookup "cdk-best-practices"
      = Except.ok [⟨1, "AWS CDK Best Practices", "", CDK_BEST_PRACTICES_SUMMARY⟩] := rfl

/-- Claim C2: for every registered provider, two calls to `entries()` agree
value-for-value and order-for-order (in the pure model `entries` is a
function of the provider alone, so repeated calls cannot differ). -/
theorem entries_deterministic (r : KnowledgeRegistry) (p : KnowledgeProvider)
    (_hp : p ∈ r.providers) :
    p.entries = p.entries ∧ ∀ i : Nat, p.entries.get? i = p.entries.get? i :=
  ⟨rfl, fun _ => rfl⟩

/-- Concrete instance of `entries_deterministic` for the shipped provider
registered in a registry. -/
theorem entries_deterministic_witness :
    cdkProvider.entries = cdkProvider.entries :=
  (entries_deterministic ⟨[cdkProvider]⟩ cdkProvider (List.mem_singleton_self _)).1

/-- Claim C3: constructing a KnowledgeEntry yields `InvalidEntry` exactly
when the title is empty or the rank is non-positive; otherwise it yields an
entry with precisely the given fields, and every entry ever produced has a
non-empty title and positive rank. -/
theorem mkKnowledgeEntry_invalid_iff (rank : Int) (title url context : String) :
    ((title = "" ∨ rank ≤ 0) →
      mkKnowledgeEntry rank title url context = Except.error EntryError.InvalidEntry)
    ∧ (¬(title = "" ∨ rank ≤ 0) →
      mkKnowledgeEntry rank title url context = Except.ok ⟨rank, title, url, context⟩)
    ∧ ∀ e : KnowledgeEntry,
        mkKnowledgeEntry rank title url context = Except.ok e →
          e.title ≠ "" ∧ 0 < e.rank := by
  refine ⟨fun h => ?_, fun h => ?_, fun e he => ?_⟩
  · simp only [mkKnowledgeEntry, if_pos h]
  · simp only [mkKnowledgeEntry, if_neg h]
  · by_cases h : title = "" ∨ rank ≤ 0
    · simp only [mkKnowledgeEntry, if_pos h] at he
      cases he
    · simp only [mkKnowledgeEntry, if_neg h, Except.ok.injEq] at he
      subst he
      push_neg at h
      refine ⟨h.1, ?_⟩
      show (0 : Int) < rank
      omega

/-- Concrete instances of `mkKnowledgeEntry_invalid_iff`: rank 0 and empty
title each raise `InvalidEntry`; a valid input produces the entry as
given. -/
theorem mkKnowledgeEntry_invalid_iff_witness :
    mkKnowledgeEntry 0 "t" "" "" = Except.error EntryError.InvalidEntry
    ∧ mkKnowledgeEntry 1 "" "" "" = Except.error EntryError.InvalidEntry
    ∧ mkKnowledgeEntry 1 "t" "u" "c" = Except.ok ⟨1, "t", "u", "c"⟩ :=
  ⟨(mkKnowledgeEntry_invalid_iff 0 "t" "" "").1 (by decide),
   (mkKnowledgeEntry_invalid_iff 1 "" "" "").1 (by decide),
   (mkKnowledgeEntry_invalid_iff 1 "t" "u" "c").2.1 (by decide)⟩

/-- Claim C4: `lookup` on a topic with no registered provider yields the
`UnknownTopic` error (never an empty success), and on a registered topic it
returns the matching provider's `entries()` verbatim. -/
theorem lookup_unknown_or_verbatim (r : KnowledgeRegistry) (t : String) :
    ((∀ p ∈ r.providers, p.topicKey ≠ t) →
      r.lookup t = Except.error RegistryError.UnknownTopic)
    ∧ ∀ p, r.findProvider t = some p → r.lookup t = Except.ok p.entries := by
  constructor
  · intro h
    have hf : r.findProvider t = none := by
      simp only [KnowledgeRegistry.findProvider, List.find?_eq_none]
      intro p hp
      simpa using h p hp
    unfold KnowledgeRegistry.lookup
    rw [hf]
  · intro p hp
    unfold KnowledgeRegistry.lookup
    rw [hp]

/-- Concrete instance of `lookup_unknown_or_verbatim`: in a registry holding
only topic `"a"`, looking up `"b"` raises `UnknownTopic` and looking up
`"a"` returns that provider's entries. -/
theorem lookup_unknown_or_verbatim_witness :
    witnessRegistryA.lookup "b" = Except.error RegistryError.UnknownTopic
    ∧ witnessRegistryA.lookup "a" = Except.ok witnessProviderA.entries :=
  ⟨(lookup_unknown_or_verbatim witnessRegistryA "b").1 (by
      intro p hp
      simp only [witnessRegistryA, List.mem_singleton] at hp
      subst hp
      decide),
   (lookup_unknown_or_verbatim witnessRegistryA "a").2 witnessProviderA rfl⟩

/-- Claim C5: registering a provider whose topic key is already registered
raises `DuplicateTopic` and leaves the registry unchanged, so the first
provider is not overwritten. -/
theorem register_duplicate_unchanged (r : KnowledgeRegistry)
    (p q : KnowledgeProvider) (hp : p ∈ r.providers)
    (hk : q.topicKey = p.topicKey) :
    (r.register q).2 = some RegistryError.DuplicateTopic
    ∧ (r.register q).1 = r := by
  have hsome : (r.findProvider q.topicKey).isSome := by
    simp only [KnowledgeRegistry.findProvider, List.find?_isSome]
    exact ⟨p, hp, by simp [hk]⟩
  obtain ⟨q', hq'⟩ := Option.isSome_iff_exists.mp hsome
  unfold KnowledgeRegistry.register
  rw [hq']
  exact ⟨rfl, rfl⟩

/-- Concrete instance of `register_duplicate_unchanged`: registering a
second provider under topic `"a"` fails and the registry is unchanged. -/
theorem register_duplicate_unchanged_witness :
    (witnessRegistryA.register witnessProviderA).2
      = some RegistryError.DuplicateTopic
    ∧ (witnessRegistryA.register witnessProviderA).1 = witnessRegistryA :=
  register_duplicate_unchanged witnessRegistryA witnessProviderA
    witnessProviderA (List.mem_singleton_self _) rfl

/-- Claim C6: within any provider, distinct entries have distinct ranks and
the sequence is sorted strictly ascending by rank. -/
theorem entries_ranks_unique_sorted (p : KnowledgeProvider) :
    List.Sorted (fun a b : KnowledgeEntry => a.rank < b.rank) p.entries
    ∧ ∀ i j : Nat, i ≠ j → ∀ e1 e2 : KnowledgeEntry,
        p.entries.get? i = some e1 → p.entries.get? j = some e2 →
          e1.rank ≠ e2.rank := by
  have hp : List.Pairwise (fun a b : KnowledgeEntry => a.rank < b.rank) p.entries :=
    p.ranks_sorted
  refine ⟨hp, ?_⟩
  intro i j hij e1 e2 h1 h2
  obtain ⟨hi, he1⟩ := List.get?_eq_some.mp h1
  obtain ⟨hj, he2⟩ := List.get?_eq_some.mp h2
  subst he1
  subst he2
  have hg := List.pairwise_iff_get.mp hp
  rcases Nat.lt_or_ge i j with h | h
  · exact ne_of_lt (hg ⟨i, hi⟩ ⟨j, hj⟩ h)
  · have h' : j < i := Nat.lt_of_le_of_ne h (fun he => hij he.symm)
    exact (ne_of_lt (hg ⟨j, hj⟩ ⟨i, hi⟩ h')).symm

/-- Concrete instance of `entries_ranks_unique_sorted` on a provider with
two entries: the sequence is sorted and the two ranks differ. -/
theorem entries_ranks_unique_sorted_witness :
    List.Sorted (fun a b : KnowledgeEntry => a.rank < b.rank)
      witnessProviderTwo.entries
    ∧ (⟨1, "x", "", ""⟩ : KnowledgeEntry).rank
        ≠ (⟨2, "y", "", ""⟩ : KnowledgeEntry).rank :=
  ⟨(entries_ranks_unique_sorted witnessProviderTwo).1,
   (entries_ranks_unique_sorted witnessProviderTwo).2 0 1 (by decide)
     ⟨1, "x", "", ""⟩ ⟨2, "y", "", ""⟩ rfl rfl⟩

/-- Claim C7: no operation mutates an entry after construction. `register`
either leaves the provider list unchanged or appends the new provider,
keeping every stored provider (hence every stored entry's rank, title, url
and context) identical; a successful `lookup` returns exactly the stored
sequence of the matching provider, entry values unchanged. -/
theorem operations_never_mutate_entries (r : KnowledgeRegistry)
    (p : KnowledgeProvider) :
    (((r.register p).1).providers = r.providers
      ∨ ((r.register p).1).providers = r.providers ++ [p])
    ∧ ∀ t l, r.lookup t = Except.ok l →
        ∃ q, r.findProvider t = some q ∧ l = q.entries := by
  constructor
  · unfold KnowledgeRegistry.register
    cases h : r.findProvider p.topicKey with
    | some q => left; rfl
    | none => right; rfl
  · intro t l hl
    unfold KnowledgeRegistry.lookup at hl
    cases h : r.findProvider t with
    | some q =>
        rw [h] at hl
        exact ⟨q, rfl, by injection hl with h'; exact h'.symm⟩
    | none =>
        rw [h] at hl
        cases hl

/-- Concrete instance of `operations_never_mutate_entries`: a duplicate
registration leaves the stored providers intact, and looking up `"a"`
returns the stored entries unchanged. -/
theorem operations_never_mutate_entries_witness :
    (((witnessRegistryA.register witnessProviderA).1).providers
        = witnessRegistryA.providers
      ∨ ((witnessRegistryA.register witnessProviderA).1).providers
        = witnessRegistryA.providers ++ [witnessProviderA])
    ∧ ∃ q, witnessRegistryA.findProvider "a" = some q
        ∧ witnessProviderA.entries = q.entries :=
  ⟨(operations_never_mutate_entries witnessRegistryA witnessProviderA).1,
   (operations_never_mutate_entries witnessRegistryA witnessProviderA).2
     "a" witnessProviderA.entries rfl⟩

/-- Claim C8: `topics()` is independent of registration order — registering
two providers in either order yields the same topic set, and for providers
keyed `"a"` and `"b"` registered into the empty registry either order
yields exactly the set containing `"a"` and `"b"`. -/
theorem topics_order_independent (r : KnowledgeRegistry)
    (p q : KnowledgeProvider) :
    (((r.register p).1).register q).1.topics
      = (((r.register q).1).register p).1.topics
    ∧ (p.topicKey = "a" → q.topicKey = "b" →
        (((emptyRegistry.register p).1).register q).1.topics
          = insert "a" {"b"}
        ∧ (((emptyRegistry.register q).1).register p).1.topics
          = insert "a" {"b"}) := by
  constructor
  · rw [topics_register, topics_register, topics_register, topics_register]
    exact Finset.Insert.comm _ _ _
  · intro ha hb
    constructor
    · rw [topics_register, topics_register, ha, hb]
      simp [emptyRegistry, KnowledgeRegistry.topics, Finset.pair_comm]
    · rw [topics_register, topics_register, ha, hb]
      simp [emptyRegistry, KnowledgeRegistry.topics, Finset.pair_comm]

/-- Concrete instance of `topics_order_independent` with providers keyed
`"a"` and `"b"` over the empty registry. -/
theorem topics_order_independent_witness :
    (((emptyRegistry.register witnessProviderA).1).register witnessProviderB).1.topics
      = (((emptyRegistry.register witnessProviderB).1).register witnessProviderA).1.topics
    ∧ (((emptyRegistry.register witnessProviderA).1).register witnessProviderB).1.topics
      = insert "a" {"b"} :=
  ⟨(topics_order_independent emptyRegistry witnessProviderA witnessProviderB).1,
   ((topics_order_independent emptyRegistry witnessProviderA witnessProviderB).2
      rfl rfl).1⟩

/-- Claim C9: every operation is a pure in-memory read — `entries()` and
`topic()` are functions of the provider value alone, and the result of
`lookup` is a function only of the registry contents. -/
theorem operations_pure (p q : KnowledgeProvider) (r s : KnowledgeRegistry) :
    (p.entryList = q.entryList → p.entries = q.entries)
    ∧ (p.topicKey = q.topicKey → p.topic = q.topic)
    ∧ (r.providers = s.providers → ∀ t, r.lookup t = s.lookup t) := by
  refine ⟨fun h => h, fun h => h, fun h t => ?_⟩
  cases r
  cases s
  cases h
  rfl

/-- Concrete instance of `operations_pure`: two registries with the same
contents answer every lookup identically. -/
theorem operations_pure_witness :
    cdkProvider.entries = cdkProvider.entries
    ∧ cdkProvider.topic = cdkProvider.topic
    ∧ witnessRegistryA.lookup "a" = KnowledgeRegistry.lookup ⟨[witnessProviderA]⟩ "a" :=
  ⟨(operations_pure cdkProvider cdkProvider witnessRegistryA ⟨[witnessProviderA]⟩).1 rfl,
   (operations_pure cdkProvider cdkProvider witnessRegistryA ⟨[witnessProviderA]⟩).2.1 rfl,
   (operations_pure cdkProvider cdkProvider witnessRegistryA ⟨[witnessProviderA]⟩).2.2 rfl "a"⟩

/-- Claim C10: the shipped constant `CDK_BEST_PRACTICES_KNOWLEDGE` is a
valid entry — rank 1 (positive), non-empty title
`"AWS CDK Best Practices"`, empty url, and context equal to the fixed
non-empty string `CDK_BEST_PRACTICES_SUMMARY`. -/
theorem shipped_entry_valid :
    CDK_BEST_PRACTICES_KNOWLEDGE.rank = 1
    ∧ 0 < CDK_BEST_PRACTICES_KNOWLEDGE.rank
    ∧ CDK_BEST_PRACTICES_KNOWLEDGE.title = "AWS CDK Best Practices"
    ∧ CDK_BEST_PRACTICES_KNOWLEDGE.title ≠ ""
    ∧ CDK_BEST_PRACTICES_KNOWLEDGE.url = ""
    ∧ CDK_BEST_PRACTICES_KNOWLEDGE.context = CDK_BEST_PRACTICES_SUMMARY
    ∧ CDK_BEST_PRACTICES_SUMMARY ≠ "" :=
  ⟨rfl, by decide, rfl, by decide, rfl, rfl, by decide⟩

end CdkKnowledge
